import Mathlib

/-!
Verification of the AMARCHs3 sample-ingestion and dataset-assembly engine.

This file gives a shallow embedding, in Lean 4, of the parts of the
repository that the testable properties of the specification talk about:

* `scripts/data_loader.py` — `GeneExpressionDataLoader.process_file`,
  `GeneExpressionDataLoader.build_dataset` (the Assembler / Orchestrator);
* `scripts/fetch_lungs.py` — `TCGALungFetcher.fetch_clinical_metadata`,
  `TCGALungFetcher.get_protein_coding_genes`,
  `TCGALungFetcher.process_single_file` (the Transformer, row mode);
* `scripts/improved_fetcher.py` — `GEOFetcher.process_single_sample_from_matrix`
  (the Transformer, matrix mode), `GEOFetcher.parse_age`, `GEOFetcher.parse_sex`.

Tables are modelled as lists of string cells; remote I/O (S3, GDC, GEO) is
modelled by passing the fetched/decoded payload in as an argument, with
`Option`/`Except` marking the failure cases that the Python code handles by
returning `None`, returning early, or raising inside a caught `try`.
Thread-pool completion order is not modelled: results are collected in
submission order, which the spec itself declares irrelevant (completion
order is explicitly outside the external contract).
-/

namespace DataLoader

/-- Decoded CSV payload as read by `pd.read_csv`: a header row naming the
columns, and the data cells, one list per data row. -/
structure Csv where
  header : List String
  cells : List (List String)
deriving DecidableEq

/-- In-memory table, mirroring the pandas DataFrame as used by
`data_loader.py`: named columns and rows of string cells (the row index is
dropped, as every concatenation in the source uses `ignore_index=True`). -/
structure DataFrame where
  columns : List String
  rows : List (List String)
deriving DecidableEq

/-- Embedding of `df[key] = value` for a scalar `value`: if `key` already
names a column its cells are overwritten, otherwise a new column is appended
and the scalar is broadcast to every existing row (a frame with zero rows
gains the column but no cells). -/
def setCol (df : DataFrame) (key val : String) : DataFrame :=
  match df.columns.findIdx? (· == key) with
  | some i => { columns := df.columns, rows := df.rows.map (fun r => r.set i val) }
  | none => { columns := df.columns ++ [key], rows := df.rows.map (fun r => r ++ [val]) }

/-- Embedding of `df.set_index(df.columns[0]).T` from
`GeneExpressionDataLoader.process_file` (data_loader.py lines 41-42): the
values of the first column become the column names of the result, and each
remaining original column becomes one row. -/
def transposeTable (csv : Csv) : DataFrame :=
  { columns := csv.cells.map (fun r => r.headD ""),
    rows := (List.range (csv.header.length - 1)).map
      (fun j => csv.cells.map (fun r => r.getD (j + 1) "")) }

/-- Embedding of `GeneExpressionDataLoader.process_file` (data_loader.py
lines 30-53). The S3 `get_object`/`read_csv` step is modelled by the
`payload` argument: `none` when fetching or decoding raised (the Python
`except` branch returns `None`), `some csv` on success. `metadata` is the
S3 side-channel metadata from `head_object`; each key/value pair is added
as a column of the transposed frame. -/
def process_file (payload : Option Csv) (metadata : List (String × String)) :
    Option DataFrame :=
  payload.map (fun csv => metadata.foldl (fun df kv => setCol df kv.1 kv.2) (transposeTable csv))

/-- Column union of `pd.concat`: columns in order of first appearance
across the concatenated frames. -/
def concatColumns (dfs : List DataFrame) : List String :=
  dfs.foldl (fun acc df => acc ++ df.columns.filter (fun c => !acc.contains c)) []

/-- Reindexing of one row to the unioned column list of a concat: a column
absent from the frame of the row is filled with the missing-value marker. -/
def reindexRow (oldCols newCols : List String) (row : List String) : List String :=
  newCols.map (fun c =>
    match oldCols.findIdx? (· == c) with
    | some i => row.getD i "NaN"
    | none => "NaN")

/-- Embedding of `pd.concat(all_dataframes, ignore_index=True)`
(data_loader.py line 78): the column set is the union of the input
columns, and the rows are all input rows, reindexed to the unioned
columns. -/
def pdConcat (dfs : List DataFrame) : DataFrame :=
  let cols := concatColumns dfs
  { columns := cols,
    rows := dfs.flatMap (fun df => df.rows.map (reindexRow df.columns cols)) }

/-- Batch-fatal errors of `GeneExpressionDataLoader.build_dataset`: the two
`ValueError`s raised at data_loader.py lines 60 and 76. -/
inductive BuildError where
  | noArtifactsFound (geo_id : String)
  | allTransformsFailed
deriving DecidableEq

/-- Embedding of `GeneExpressionDataLoader.build_dataset` (data_loader.py
lines 55-80). `files` is the result of `list_sample_files` (an external S3
listing), and `process` is the per-file fetch-and-transform step
(`process_file` applied to the payload and metadata of that file, `none` on a
caught per-file failure). Results are collected in submission order; the
completion order of the thread pool is not part of the contract. -/
def build_dataset (geo_id : String) (files : List String)
    (process : String → Option DataFrame) : Except BuildError DataFrame :=
  if files.isEmpty then .error (.noArtifactsFound geo_id)
  else
    let all_dataframes := files.filterMap process
    if all_dataframes.isEmpty then .error .allTransformsFailed
    else .ok (pdConcat all_dataframes)

end DataLoader

namespace DataLoader

theorem sum_ones {l : List Nat} (h : ∀ x ∈ l, x = 1) : l.sum = l.length := by
  induction l with
  | nil => rfl
  | cons a t ih =>
    have ha : a = 1 := h a (by simp)
    have ht : ∀ x ∈ t, x = 1 := fun x hx => h x (by simp [hx])
    simp [ha, ih ht, Nat.add_comm]

/-- Length of the concatenated row list is the sum of the input row
counts. -/
theorem pdConcat_rows_length (dfs : List DataFrame) :
    (pdConcat dfs).rows.length = (dfs.map (fun df => df.rows.length)).sum := by
  simp only [pdConcat, List.length_flatMap]
  congr 1
  apply List.map_congr_left
  intro df _
  simp [Function.comp]

/-- Removing an artifact whose transform failed from the submitted list
leaves the collected success list unchanged. -/
theorem filterMap_drop_failed {α β : Type} [DecidableEq α]
    (process : α → Option β) (f : α) (hnone : process f = none) (l : List α) :
    l.filterMap process = (l.filter (fun g => g != f)).filterMap process := by
  induction l with
  | nil => rfl
  | cons a t ih =>
    by_cases haf : a = f
    · subst haf
      simp [List.filterMap_cons, hnone, List.filter_cons, ih]
    · simp [List.filterMap_cons, List.filter_cons, bne_iff_ne, haf, ih]

/-- Sample CSV in the three-column layout that `fetch_lungs.py` uploads
(`gene_id, gene_name, expression_value`, lines 448-449): the artifact
store of the repository itself contains files of this shape. -/
def csvThreeCol : Csv :=
  ⟨["gene_id", "gene_name", "expression_value"], [["G1", "N1", "5"], ["G2", "N2", "7"]]⟩

/-- The transformed unit produced by `process_file` on `csvThreeCol`. -/
def unitThreeCol : DataFrame := transposeTable csvThreeCol

/-- Single-row transformed unit (sample with features G1, G2). -/
def dfG1 : DataFrame := ⟨["G1", "G2"], [["5", "7"]]⟩

/-- Single-row transformed unit (sample with features G1, G3). -/
def dfG2 : DataFrame := ⟨["G1", "G3"], [["2", "4"]]⟩

/-- C1 (counterexample): a unit successfully transformed by `process_file`
from a three-column sample CSV spans two rows of the assembled dataset, so
`rowCount(assemble(units))` differs from the number of units. -/
theorem C1_counterexample :
    process_file (some csvThreeCol) [] = some unitThreeCol ∧
    (pdConcat [unitThreeCol]).rows.length = 2 ∧ [unitThreeCol].length = 1 := by
  decide

/-- C1 (amended): the assembled dataset keeps every row of every unit that
reaches `pd.concat` — its row count is the sum of the per-unit row counts, so
no unit is dropped — and it equals the number of units exactly when each
unit is a single row, which holds precisely for units transposed from a
two-column sample CSV (one identifier column plus one value column), since
a transposed unit has one row per non-identifier column of its source. -/
theorem C1_assemble_row_count (dfs : List DataFrame) (csv : Csv) :
    (pdConcat dfs).rows.length = (dfs.map (fun df => df.rows.length)).sum ∧
    ((∀ df ∈ dfs, df.rows.length = 1) → (pdConcat dfs).rows.length = dfs.length) ∧
    (transposeTable csv).rows.length = csv.header.length - 1 := by
  refine ⟨pdConcat_rows_length dfs, fun h => ?_, by simp [transposeTable]⟩
  rw [pdConcat_rows_length]
  have hall : ∀ x ∈ dfs.map (fun df => df.rows.length), x = 1 := by
    intro x hx
    obtain ⟨df, hdf, rfl⟩ := List.mem_map.1 hx
    exact h df hdf
  rw [sum_ones hall, List.length_map]

/-- C1 (witness): assembling two concrete single-row units yields exactly
one row per unit. -/
theorem C1_assemble_row_count_witness :
    (pdConcat [dfG1, dfG2]).rows.length = [dfG1, dfG2].length :=
  (C1_assemble_row_count [dfG1, dfG2] ⟨["gene_id", "expr"], [["G1", "1"]]⟩).2.1 (by decide)

/-- C2: `build_dataset` fails with `noArtifactsFound` on an empty catalog
listing (returning no partial dataset), fails with `allTransformsFailed`
when every dispatched transform returns `none`, returns the assembled
concatenation whenever at least one artifact transforms successfully, and
excludes every failed artifact from the collected success list. -/
theorem C2_build_dataset_contract (geo_id : String) (files : List String)
    (process : String → Option DataFrame) :
    (files = [] → build_dataset geo_id files process = .error (.noArtifactsFound geo_id)) ∧
    (files ≠ [] → (∀ f ∈ files, process f = none) →
      build_dataset geo_id files process = .error .allTransformsFailed) ∧
    (∀ f ∈ files, (process f).isSome →
      build_dataset geo_id files process = .ok (pdConcat (files.filterMap process))) ∧
    (∀ f ∈ files, process f = none →
      files.filterMap process = (files.filter (fun g => g != f)).filterMap process) := by
  refine ⟨fun h => by subst h; rfl, fun h1 h2 => ?_, fun f hf hsome => ?_, ?_⟩
  · have hempty : files.filterMap process = [] := by
      rw [List.filterMap_eq_nil_iff]
      intro a ha
      exact h2 a ha
    simp [build_dataset, h1, hempty]
  · obtain ⟨b, hb⟩ := Option.isSome_iff_exists.1 hsome
    have hne : files ≠ [] := by
      intro h
      subst h
      exact absurd hf (List.not_mem_nil f)
    have hmem : b ∈ files.filterMap process := List.mem_filterMap.2 ⟨f, hf, hb⟩
    have hfm : files.filterMap process ≠ [] := by
      intro h
      rw [h] at hmem
      exact absurd hmem (List.not_mem_nil b)
    simp [build_dataset, hne, hfm]
  · intro f _ hnone
    exact filterMap_drop_failed process f hnone files

/-- Transform that always fails (models every per-file fetch raising). -/
def procNone : String → Option DataFrame := fun _ => none

/-- Transform that always succeeds with the unit `dfG1`. -/
def procG1 : String → Option DataFrame := fun _ => some dfG1

/-- C2 (witness): the contract instantiated on concrete listings and
transform outcomes. -/
theorem C2_build_dataset_contract_witness :
    build_dataset "GSE58137" [] procG1 = .error (.noArtifactsFound "GSE58137") ∧
    build_dataset "GSE58137" ["a.csv"] procNone = .error .allTransformsFailed ∧
    build_dataset "GSE58137" ["a.csv"] procG1 = .ok (pdConcat (["a.csv"].filterMap procG1)) ∧
    ["a.csv"].filterMap procNone = (["a.csv"].filter (fun g => g != "a.csv")).filterMap procNone := by
  refine ⟨(C2_build_dataset_contract "GSE58137" [] procG1).1 rfl,
    (C2_build_dataset_contract "GSE58137" ["a.csv"] procNone).2.1 (by decide)
      (fun f _ => rfl),
    (C2_build_dataset_contract "GSE58137" ["a.csv"] procG1).2.2.1 "a.csv" (by decide) rfl,
    (C2_build_dataset_contract "GSE58137" ["a.csv"] procNone).2.2.2 "a.csv" (by decide) rfl⟩

/-- C8: column union is commutative — assembling units `[A, B]` yields the
same column set as assembling `[B, A]`. -/
theorem C8_column_union_commutative (A B : DataFrame) :
    (pdConcat [A, B]).columns.toFinset = (pdConcat [B, A]).columns.toFinset := by
  ext c
  simp [pdConcat, concatColumns, List.mem_filter]
  tauto

end DataLoader

namespace PyStr

/-- Embedding of a Python single-character `str.split(sep)` on the
character list of a string: splits at every occurrence of `sep`, keeping
empty pieces, so the result is always non-empty. -/
def splitChar (sep : Char) : List Char → List (List Char)
  | [] => [[]]
  | c :: cs =>
    if c = sep then [] :: splitChar sep cs
    else
      match splitChar sep cs with
      | [] => [[c]]
      | p :: ps => (c :: p) :: ps

/-- Embedding of Python `s.lower()` (character-wise lowercasing). -/
def lowerStr (s : String) : String := String.mk (s.data.map Char.toLower)

/-- Whether `needle` occurs at the start of `haystack`. -/
def strStarts : List Char → List Char → Bool
  | [], _ => true
  | _ :: _, [] => false
  | a :: as, b :: bs => a == b && strStarts as bs

/-- Whether `needle` occurs anywhere inside the second list. -/
def strHas (needle : List Char) : List Char → Bool
  | [] => strStarts needle []
  | b :: bs => strStarts needle (b :: bs) || strHas needle bs

/-- Embedding of the Python substring test `needle in haystack`. -/
def pyIn (needle haystack : String) : Bool := strHas needle.data haystack.data

/-- Truthiness of a Python string: non-empty strings are truthy. -/
def pyTruthy (s : String) : Bool := !s.data.isEmpty

/-- First `some` produced by `f` along a list, `none` if every element
maps to `none` — the shape of the `for`-loops with an early `return` used
by `parse_age` and `parse_sex`. -/
def firstSome {α β : Type} (f : α → Option β) : List α → Option β
  | [] => none
  | x :: xs =>
    match f x with
    | some b => some b
    | none => firstSome f xs

theorem splitChar_ne_nil (sep : Char) (l : List Char) : splitChar sep l ≠ [] := by
  cases l with
  | nil => simp [splitChar]
  | cons c cs =>
    by_cases h : c = sep
    · simp [splitChar, h]
    · simp only [splitChar, if_neg h]
      cases splitChar sep cs <;> simp

theorem splitChar_head (sep : Char) (l : List Char) :
    (splitChar sep l).headD [] = l.takeWhile (fun c => c ≠ sep) := by
  induction l with
  | nil => rfl
  | cons c cs ih =>
    by_cases h : c = sep
    · simp [splitChar, h, List.takeWhile_cons]
    · obtain ⟨p, ps, hps⟩ := List.exists_cons_of_ne_nil (splitChar_ne_nil sep cs)
      rw [hps] at ih
      simp only [splitChar, if_neg h, hps, List.takeWhile_cons, decide_eq_true_eq]
      rw [if_pos h]
      simp only [List.headD_cons] at ih ⊢
      rw [ih]

theorem firstSome_append_none {α β : Type} (f : α → Option β) (pre l : List α)
    (h : ∀ p ∈ pre, f p = none) : firstSome f (pre ++ l) = firstSome f l := by
  induction pre with
  | nil => rfl
  | cons a t ih =>
    have ha : f a = none := h a (by simp)
    have ht : ∀ p ∈ t, f p = none := fun p hp => h p (by simp [hp])
    simp [firstSome, ha, ih ht]

theorem firstSome_eq_none {α β : Type} (f : α → Option β) (l : List α)
    (h : ∀ p ∈ l, f p = none) : firstSome f l = none := by
  have := firstSome_append_none f l [] h
  simpa using this

end PyStr

namespace FetchLungs

open PyStr

/-- Embedding of the version-strip idiom used twice in fetch_lungs.py:
`df["gene_id"].str.split(".").str[0]` at line 439, and the
`split` chain at line 345 that extracts a quoted attribute value and cuts
it at the first dot — the piece of the identifier before the first `.`. -/
def stripVersion (s : String) : String := String.mk ((splitChar '.' s.data).headD [])

/-- Per-unit transform failures of `process_single_file`. The
no-value-column case leaves the Python local `expr_df` unbound, so the
later use at line 465 raises; the raise is caught by both the sequential
driver (line 372) and the parallel driver (line 405), skipping the unit. -/
inductive TransformError where
  | noValueColumn
deriving DecidableEq

/-- Predicate of the fallback column scan at line 455:
`"count" in c.lower() or "tpm" in c.lower()`. -/
def countTpmCol (c : String) : Bool :=
  pyIn "count" (lowerStr c) || pyIn "tpm" (lowerStr c)

/-- Embedding of the value-column selection of
`TCGALungFetcher.process_single_file` (fetch_lungs.py lines 445-458):
prefer the explicit `unstranded` count column, then `tpm_unstranded`, then
the first column whose lowercased name contains `count` or `tpm`; with no
match the unit fails (see `TransformError`). -/
def select_value_column (cols : List String) : Except TransformError String :=
  if cols.contains "unstranded" then .ok "unstranded"
  else if cols.contains "tpm_unstranded" then .ok "tpm_unstranded"
  else
    match cols.filter countTpmCol with
    | [] => .error .noValueColumn
    | c :: _ => .ok c

/-- One treatment sub-record of a GDC case hit (the five fields copied at
fetch_lungs.py lines 198-202). -/
structure Treatment where
  treatment_type : String
  therapeutic_agents : String
  days_to_treatment_start : String
  days_to_treatment_end : String
  treatment_outcome : String
deriving DecidableEq

/-- One case hit returned by the GDC `/cases` query, after the
demographic/diagnosis/exposure sub-records have been flattened into the
base record (fetch_lungs.py lines 151-189): `base_fields` bundles those
non-treatment fields. -/
structure CaseHit where
  case_id : String
  patient_id : String
  base_fields : List (String × String)
  treatments : List Treatment
deriving DecidableEq

/-- One row of the flattened clinical table: the base record plus, when the
case has treatments, the copied treatment fields and the 1-based
`treatment_number` (fetch_lungs.py lines 192-206). -/
structure ClinicalRow where
  case_id : String
  patient_id : String
  base_fields : List (String × String)
  treatment_number : Option Nat
  treatment : Option Treatment
deriving DecidableEq

/-- Embedding of the treatment fan-out of
`TCGALungFetcher.fetch_clinical_metadata` (lines 192-206): a case with
treatments contributes one row per treatment, each a copy of the base
record; a case without treatments contributes the base record once. -/
def flatten_case (c : CaseHit) : List ClinicalRow :=
  if c.treatments.isEmpty then
    [⟨c.case_id, c.patient_id, c.base_fields, none, none⟩]
  else
    c.treatments.enum.map
      (fun it => ⟨c.case_id, c.patient_id, c.base_fields, some (it.1 + 1), some it.2⟩)

/-- Embedding of `TCGALungFetcher.fetch_clinical_metadata` (lines 99-212):
the clinical table is the concatenation of the flattened rows of every
case hit, in hit order. The GDC request itself is external; `hits` is its
decoded response. -/
def fetch_clinical_metadata (hits : List CaseHit) : List ClinicalRow :=
  hits.flatMap flatten_case

/-- Embedding of the metadata reconciliation at fetch_lungs.py line 461:
`clinical_df[clinical_df["patient_id"] == patient_id].iloc[0]` when a
matching row exists, `{}` (here `none`) otherwise — only the first
matching row is attached. -/
def lookup_patient_meta (clinical : List ClinicalRow) (pid : String) : Option ClinicalRow :=
  (clinical.filter (fun r => r.patient_id == pid)).head?

/-- One row of a decoded STAR-counts table: the `gene_id` cell plus the
remaining cells, which the filter step does not inspect. -/
structure GeneRow where
  gene_id : String
  rest : List String
deriving DecidableEq

/-- Embedding of fetch_lungs.py line 439:
`df["gene_id_clean"] = df["gene_id"].str.split(".").str[0]`. -/
def gene_id_clean (r : GeneRow) : String := stripVersion r.gene_id

/-- Embedding of the protein-coding filter of `process_single_file`
(fetch_lungs.py lines 442-443): `if protein_coding:` is false for the
empty Python set (the value `get_protein_coding_genes` returns when the
GENCODE download raises, lines 357-359), so an empty set leaves every row
in place; a non-empty set keeps exactly the rows whose cleaned gene id is
a member (`isin`). -/
def apply_gene_filter (protein_coding : List String) (rows : List GeneRow) : List GeneRow :=
  if protein_coding.isEmpty then rows
  else rows.filter (fun r => protein_coding.contains (gene_id_clean r))

theorem takeWhile_all {p : Char → Bool} {l : List Char} (h : ∀ a ∈ l, p a = true) :
    l.takeWhile p = l := by
  induction l with
  | nil => rfl
  | cons a t ih =>
    have ha : p a = true := h a (by simp)
    have ht : ∀ a ∈ t, p a = true := fun a hat => h a (by simp [hat])
    simp [List.takeWhile_cons, ha, ih ht]

/-- Every row flattened from a case copies the identifying and
non-treatment fields of the case. -/
theorem flatten_case_fields {c : CaseHit} {r : ClinicalRow} (hr : r ∈ flatten_case c) :
    r.case_id = c.case_id ∧ r.patient_id = c.patient_id ∧ r.base_fields = c.base_fields := by
  unfold flatten_case at hr
  split at hr
  · simp at hr
    subst hr
    exact ⟨rfl, rfl, rfl⟩
  · obtain ⟨it, _, rfl⟩ := List.mem_map.1 hr
    exact ⟨rfl, rfl, rfl⟩

/-- C3: value-column selection follows the preference order — an explicit
`unstranded` count column first, then the `tpm_unstranded` TPM column,
then the first column whose lowercased name contains `count` or `tpm`; and
when no such column exists the transform fails with
`TransformError.noValueColumn` (a per-unit skip, not fatal to the run). -/
theorem C3_value_column_preference (cols : List String) :
    ("unstranded" ∈ cols → select_value_column cols = .ok "unstranded") ∧
    ("unstranded" ∉ cols → "tpm_unstranded" ∈ cols →
      select_value_column cols = .ok "tpm_unstranded") ∧
    (∀ c rest, "unstranded" ∉ cols → "tpm_unstranded" ∉ cols →
      cols.filter countTpmCol = c :: rest → select_value_column cols = .ok c) ∧
    ("unstranded" ∉ cols → "tpm_unstranded" ∉ cols →
      (∀ c ∈ cols, countTpmCol c = false) →
      select_value_column cols = .error .noValueColumn) := by
  refine ⟨fun h1 => ?_, fun h1 h2 => ?_, fun c rest h1 h2 h3 => ?_, fun h1 h2 h3 => ?_⟩
  · simp [select_value_column, h1]
  · simp [select_value_column, h1, h2]
  · have hfil : cols.filter countTpmCol = c :: rest := h3
    simp [select_value_column, h1, h2, hfil]
  · have hfil : cols.filter countTpmCol = [] := by
      rw [List.filter_eq_nil_iff]
      intro a ha
      simp [h3 a ha]
    simp [select_value_column, h1, h2, hfil]

/-- C3 (witness): the four selection branches on concrete STAR-counts
headers. -/
theorem C3_value_column_preference_witness :
    select_value_column ["gene_id", "gene_name", "gene_type", "unstranded", "stranded_first"]
      = .ok "unstranded" ∧
    select_value_column ["gene_id", "tpm_unstranded"] = .ok "tpm_unstranded" ∧
    select_value_column ["gene_id", "raw_Counts"] = .ok "raw_Counts" ∧
    select_value_column ["gene_id", "gene_name"] = .error .noValueColumn := by
  refine ⟨(C3_value_column_preference _).1 (by decide),
    (C3_value_column_preference _).2.1 (by decide) (by decide),
    (C3_value_column_preference _).2.2.1 "raw_Counts" [] (by decide) (by decide) (by decide),
    (C3_value_column_preference _).2.2.2 (by decide) (by decide) (by decide)⟩

/-- C4: a case with N treatment records flattens to exactly N clinical
rows, all sharing the non-treatment fields of the case, and reconciling an
artifact against the clinical table attaches only the first matching row —
the one carrying `treatment_number = 1`, the earliest treatment record —
so the fan-out never duplicates rows of the assembled dataset. -/
theorem C4_clinical_fanout (c : CaseHit) :
    (c.treatments ≠ [] → (flatten_case c).length = c.treatments.length) ∧
    (∀ r ∈ flatten_case c, r.case_id = c.case_id ∧ r.patient_id = c.patient_id ∧
      r.base_fields = c.base_fields) ∧
    (∀ pre post t ts, (∀ d ∈ pre, d.patient_id ≠ c.patient_id) → c.treatments = t :: ts →
      lookup_patient_meta (fetch_clinical_metadata (pre ++ c :: post)) c.patient_id =
        some ⟨c.case_id, c.patient_id, c.base_fields, some 1, some t⟩) := by
  refine ⟨fun h => ?_, fun r hr => flatten_case_fields hr, fun pre post t ts hpre htr => ?_⟩
  · cases ht : c.treatments with
    | nil => exact absurd ht h
    | cons a as => simp [flatten_case, ht]
  · have hpre0 : ((pre.flatMap flatten_case).filter
        (fun r => r.patient_id == c.patient_id)) = [] := by
      rw [List.filter_eq_nil_iff]
      intro r hr
      obtain ⟨d, hd, hrd⟩ := List.mem_flatMap.1 hr
      have hp : r.patient_id = d.patient_id := (flatten_case_fields hrd).2.1
      simp [hp, hpre d hd]
    unfold lookup_patient_meta fetch_clinical_metadata
    rw [List.flatMap_append, List.flatMap_cons, List.filter_append, hpre0, List.nil_append,
      List.filter_append]
    have hflat : flatten_case c =
        (⟨c.case_id, c.patient_id, c.base_fields, some 1, some t⟩ : ClinicalRow) ::
          (List.enumFrom 1 ts).map
            (fun it => ⟨c.case_id, c.patient_id, c.base_fields, some (it.1 + 1), some it.2⟩) := by
      unfold flatten_case
      rw [htr]
      rfl
    rw [hflat, List.filter_cons]
    simp

/-- Concrete first treatment record. -/
def trtA : Treatment := ⟨"Chemotherapy", "agentA", "10", "20", "Complete Response"⟩

/-- Concrete second treatment record. -/
def trtB : Treatment := ⟨"Radiation", "agentB", "30", "40", "Unknown"⟩

/-- Case `P1` with two treatment records (the fan-out scenario of the spec). -/
def caseP1 : CaseHit := ⟨"case-1", "P1", [("gender", "female")], [trtA, trtB]⟩

/-- C4 (witness): case `P1` with two treatment rows flattens to two rows,
and the reconciliation for `P1` attaches the earliest treatment record. -/
theorem C4_clinical_fanout_witness :
    (flatten_case caseP1).length = caseP1.treatments.length ∧
    lookup_patient_meta (fetch_clinical_metadata [caseP1]) "P1" =
      some ⟨"case-1", "P1", [("gender", "female")], some 1, some trtA⟩ := by
  refine ⟨(C4_clinical_fanout caseP1).1 (by decide), ?_⟩
  have h := (C4_clinical_fanout caseP1).2.2 [] [] trtA [trtB]
    (fun d hd => absurd hd (List.not_mem_nil d)) rfl
  exact h

/-- C5: a non-empty filter set keeps exactly the rows whose
version-stripped identifier belongs to the set (the scenario of the
spec: `{G1, G2}` applied to rows `G1, G2, G3` keeps `G1, G2`), and the empty set
— the fallback when the reference fetch fails — keeps every row. -/
theorem C5_gene_filter (protein_coding : List String) (rows : List GeneRow) :
    (protein_coding ≠ [] → ∀ r, r ∈ apply_gene_filter protein_coding rows ↔
      r ∈ rows ∧ gene_id_clean r ∈ protein_coding) ∧
    apply_gene_filter [] rows = rows ∧
    apply_gene_filter ["G1", "G2"] [⟨"G1", []⟩, ⟨"G2", []⟩, ⟨"G3", []⟩] =
      [⟨"G1", []⟩, ⟨"G2", []⟩] := by
  refine ⟨fun h r => ?_, rfl, by decide⟩
  have he : protein_coding.isEmpty = false := by
    cases protein_coding with
    | nil => exact absurd rfl h
    | cons a t => rfl
  simp [apply_gene_filter, he, List.mem_filter]

/-- C5 (witness): membership characterization of the filtered rows on a
concrete set and table. -/
theorem C5_gene_filter_witness :
    (⟨"G1", []⟩ : GeneRow) ∈ apply_gene_filter ["G1"] [⟨"G1", []⟩, ⟨"G3", []⟩] ↔
      (⟨"G1", []⟩ : GeneRow) ∈ [(⟨"G1", []⟩ : GeneRow), ⟨"G3", []⟩] ∧
        gene_id_clean ⟨"G1", []⟩ ∈ ["G1"] :=
  (C5_gene_filter ["G1"] [⟨"G1", []⟩, ⟨"G3", []⟩]).1 (by decide) ⟨"G1", []⟩

/-- C6: version-stripping is the deterministic function taking the
substring before the first `.` — `"ENSG00000139.8"` always reduces to
`"ENSG00000139"` — and an identifier without `.` is returned unchanged. -/
theorem C6_version_strip (s : String) :
    stripVersion "ENSG00000139.8" = "ENSG00000139" ∧
    (∀ t : String, stripVersion t = String.mk (t.data.takeWhile (fun c => c ≠ '.'))) ∧
    ('.' ∉ s.data → stripVersion s = s) := by
  refine ⟨rfl, fun t => ?_, fun h => ?_⟩
  · unfold stripVersion
    rw [PyStr.splitChar_head]
  · obtain ⟨l⟩ := s
    unfold stripVersion
    rw [PyStr.splitChar_head]
    have hall : ∀ a ∈ l, decide (a ≠ '.') = true := by
      intro a ha
      simp only [decide_eq_true_eq]
      intro hdot
      exact h (hdot ▸ ha)
    rw [takeWhile_all hall]

/-- C6 (witness): a dot-free identifier is returned unchanged. -/
theorem C6_version_strip_witness : stripVersion "ENSG00000139" = "ENSG00000139" :=
  (C6_version_strip "ENSG00000139").2.2 (by decide)

end FetchLungs

namespace GeoFetcher

open PyStr

/-- Shared expression matrix (`gse.pivot_samples("VALUE")`): feature rows
shared by all samples, one column per sample id; `values` holds one cell
list per gene row, aligned with `columns`. -/
structure ExprMatrix where
  columns : List String
  gene_ids : List String
  values : List (List String)
deriving DecidableEq

/-- One row of the extracted metadata table (`GEOFetcher.extract_metadata`);
only the `sample_id` key is consulted by the matrix path, the rest rides
along. -/
structure SampleMeta where
  sample_id : String
  fields : List (String × String)
deriving DecidableEq

/-- Outcome of `GEOFetcher.process_single_sample_from_matrix`
(improved_fetcher.py lines 128-164). The two warning-and-return paths
(sample id absent from the matrix columns, line 131; empty projected
column, line 144) skip the unit without raising, each logging the sample
id; a missing metadata row raises out of `iloc[0]` at line 141, which only
the parallel driver catches. -/
inductive MatrixResult where
  | uploaded (s3_key : String) (table : List (String × String))
  | skippedSampleNotFound (sample_id : String)
  | skippedNoData (sample_id : String)
  | raisedNoMetadata (sample_id : String)
deriving DecidableEq

/-- Embedding of `GEOFetcher.process_single_sample_from_matrix`
(improved_fetcher.py lines 128-164): project the column of the sample out
of the shared matrix as a two-column `gene_id, expression_value` table,
look up the metadata row of the sample, and upload under
`{geo_id}/samples/{sample_id}.csv`. -/
def process_single_sample_from_matrix (geo_id : String) (m : ExprMatrix)
    (sample_id : String) (metadata : List SampleMeta) : MatrixResult :=
  if !m.columns.contains sample_id then .skippedSampleNotFound sample_id
  else
    let idx := (m.columns.findIdx? (· == sample_id)).getD 0
    let sample_expr := m.gene_ids.zip (m.values.map (fun row => row.getD idx ""))
    match (metadata.filter (fun r => r.sample_id == sample_id)).head? with
    | none => .raisedNoMetadata sample_id
    | some _ =>
      if sample_expr.isEmpty then .skippedNoData sample_id
      else .uploaded (geo_id ++ "/samples/" ++ sample_id ++ ".csv") sample_expr

/-- Embedding of `GEOFetcher.process_samples_parallel_matrix`
(improved_fetcher.py lines 110-126): every sample id is dispatched, each
outcome is recorded (`future.result()` is wrapped in `try`/`except`, so no
outcome aborts the batch); completion order is not modelled, as it is
outside the contract. -/
def process_samples_parallel_matrix (geo_id : String) (m : ExprMatrix)
    (sample_ids : List String) (metadata : List SampleMeta) :
    List (String × MatrixResult) :=
  sample_ids.map (fun sid => (sid, process_single_sample_from_matrix geo_id m sid metadata))

/-- C7: in matrix-orientation mode, a sample id absent from the shared
column set of the shared matrix makes the transform fail for that unit with the
sample-not-found outcome carrying its identifier, and the batch driver
still records one outcome per dispatched sample id — the batch continues
rather than aborting. -/
theorem C7_sample_not_found (geo_id : String) (m : ExprMatrix) (sample_id : String)
    (metadata : List SampleMeta) (sample_ids : List String) :
    (sample_id ∉ m.columns →
      process_single_sample_from_matrix geo_id m sample_id metadata =
        .skippedSampleNotFound sample_id) ∧
    ((process_samples_parallel_matrix geo_id m sample_ids metadata).map Prod.fst
      = sample_ids) := by
  constructor
  · intro h
    simp [process_single_sample_from_matrix, h]
  · induction sample_ids with
    | nil => rfl
    | cons a t ih => simpa [process_samples_parallel_matrix] using ih

/-- Concrete shared matrix holding only sample `GSM1`. -/
def mEx : ExprMatrix := ⟨["GSM1"], ["g1"], [["3"]]⟩

/-- C7 (witness): sample `GSM2` is absent from the concrete matrix, and
the batch over `[GSM1, GSM2]` still records both outcomes. -/
theorem C7_sample_not_found_witness :
    process_single_sample_from_matrix "GSE1" mEx "GSM2" [] =
      .skippedSampleNotFound "GSM2" ∧
    (process_samples_parallel_matrix "GSE1" mEx ["GSM1", "GSM2"] []).map Prod.fst
      = ["GSM1", "GSM2"] :=
  ⟨(C7_sample_not_found "GSE1" mEx "GSM2" [] []).1 (by decide),
   (C7_sample_not_found "GSE1" mEx "GSM2" [] ["GSM1", "GSM2"]).2⟩

/-- GEO per-sample metadata record (`gsm.metadata`): a mapping from field
name to a list of string items; only the fields consulted by `parse_age`
and `parse_sex` are modelled, `none` standing for an absent key. -/
structure GsmMetadata where
  age : Option (List String)
  gender : Option (List String)
  sex : Option (List String)
  characteristics_ch1 : Option (List String)
  description : Option (List String)
deriving DecidableEq

/-- Embedding of the per-item classification inside `GEOFetcher.parse_sex`
(improved_fetcher.py lines 283-288). Line 287 reads
`if "female" or "f" in item_lower:` (single-quoted in the source), which
Python parses as `("female") or ("f" in item_lower)`; the non-empty
literal `"female"` is truthy, so that branch condition holds for every
item. It is embedded as written: `pyTruthy "female" || pyIn "f" item_lower`. -/
def classify_sex_item (item : String) : Option String :=
  let item_lower := lowerStr item
  if pyIn "male" item_lower || item_lower == "m" then
    some (if pyIn "female" item_lower then "female" else "male")
  else if pyTruthy "female" || pyIn "f" item_lower then
    some "female"
  else none

/-- Items scanned by `parse_sex`, in field order
(`gender`, `sex`, `characteristics_ch1`, line 281); an absent field
contributes nothing. -/
def sex_items (md : GsmMetadata) : List String :=
  md.gender.getD [] ++ md.sex.getD [] ++ md.characteristics_ch1.getD []

/-- Embedding of `GEOFetcher.parse_sex` (improved_fetcher.py lines
279-289): the first classification produced along the scanned items, or
`None` when every item falls through. -/
def parse_sex (md : GsmMetadata) : Option String :=
  firstSome classify_sex_item (sex_items md)

/-- Embedding of the leading-integer extraction in `parse_age` — the regex
search for a digit group followed by `int(...)` (lines 273-276): the first maximal
digit run of the item, as a number. -/
def firstNatRun : List Char → Option Nat
  | [] => none
  | c :: cs =>
    if c.isDigit then
      some ((c :: cs.takeWhile Char.isDigit).foldl
        (fun acc d => acc * 10 + (d.toNat - '0'.toNat)) 0)
    else firstNatRun cs

/-- Embedding of the per-item step of `GEOFetcher.parse_age` (lines
271-276): an item participates only when its lowercased text contains the
substring `age` (also inside a longer word), and yields its first integer
if it has one. -/
def age_from_item (item : String) : Option Nat :=
  if pyIn "age" (lowerStr item) then firstNatRun item.data else none

/-- Items scanned by `parse_age`, in field order
(`age`, `characteristics_ch1`, `description`, line 269). -/
def age_items (md : GsmMetadata) : List String :=
  md.age.getD [] ++ md.characteristics_ch1.getD [] ++ md.description.getD []

/-- Embedding of `GEOFetcher.parse_age` (improved_fetcher.py lines
267-277). -/
def parse_age (md : GsmMetadata) : Option Nat :=
  firstSome age_from_item (age_items md)

/-- The per-item sex classification always produces a value: its second
branch condition is constantly true. -/
theorem classify_sex_item_isSome (item : String) : (classify_sex_item item).isSome = true := by
  have hf : pyTruthy "female" = true := rfl
  unfold classify_sex_item
  by_cases h : (pyIn "male" (lowerStr item) || lowerStr item == "m") = true
  · simp [h]
  · simp [h, hf]

/-- C9 (counterexample): a first item `M` refutes the universal
classification part of the claim — its lowercase text `m` does not
contain `male`, yet the first branch at line 285 matches `m == item_lower`
and classifies it as `male`, not `female`. -/
theorem C9_sex_counterexample :
    pyIn "male" (lowerStr "M") = false ∧
    classify_sex_item "M" = some "male" ∧
    parse_sex ⟨none, some ["M"], none, none, none⟩ = some "male" := by
  decide

/-- C9 (amended): the second classification condition of `parse_sex` is
true for every item (the Python disjunction at line 287 has the truthy
literal on the left), so whenever any of the fields `gender`, `sex`,
`characteristics_ch1` is present with at least one item `parse_sex`
returns a value, and a first item whose lowercase text does not contain
`male` and is not exactly `m` — such as `unknown` — is classified as
`female`. -/
theorem C9_sex_condition_always_true (md : GsmMetadata) (item : String) :
    (∀ s : String, (pyTruthy "female" || pyIn "f" (lowerStr s)) = true) ∧
    (sex_items md ≠ [] → (parse_sex md).isSome = true) ∧
    (pyIn "male" (lowerStr item) = false → lowerStr item ≠ "m" →
      classify_sex_item item = some "female") ∧
    parse_sex ⟨none, some ["unknown"], none, none, none⟩ = some "female" := by
  have hf : pyTruthy "female" = true := rfl
  refine ⟨fun s => by simp [hf], fun h => ?_, fun h1 h2 => ?_, by decide⟩
  · cases hs : sex_items md with
    | nil => exact absurd hs h
    | cons a t =>
      unfold parse_sex
      rw [hs]
      obtain ⟨b, hb⟩ := Option.isSome_iff_exists.1 (classify_sex_item_isSome a)
      simp [firstSome, hb]
  · have hcond : (pyIn "male" (lowerStr item) || lowerStr item == "m") = false := by
      simp [h1, h2]
    unfold classify_sex_item
    simp [hcond, hf]

/-- C9 (witness): a record whose only populated field holds a
non-sex-related item still gets a parsed sex, and the item `unknown` is
classified as `female`. -/
theorem C9_sex_condition_always_true_witness :
    (parse_sex ⟨none, none, none, some ["tissue: blood"], none⟩).isSome = true ∧
    classify_sex_item "unknown" = some "female" :=
  ⟨(C9_sex_condition_always_true ⟨none, none, none, some ["tissue: blood"], none⟩ "x").2.1
      (by decide),
   (C9_sex_condition_always_true ⟨none, none, none, none, none⟩ "unknown").2.2.1
      (by decide) (by decide)⟩

/-- C10: `parse_age` scans `age`, `characteristics_ch1`, `description` in
order and returns the first integer of the first item whose lowercase text
contains `age` and holds a digit — also when `age` sits inside a longer
word, so `stage 3` yields 3 and `passage 12` yields 12 — and returns
`none` when no scanned item both mentions `age` and holds a digit. -/
theorem C10_parse_age_scan (md : GsmMetadata) (pre rest : List String)
    (item : String) (n : Nat) :
    parse_age ⟨none, none, none, some ["stage 3"], none⟩ = some 3 ∧
    parse_age ⟨none, none, none, some ["passage 12"], none⟩ = some 12 ∧
    (age_items md = pre ++ item :: rest →
      (∀ p ∈ pre, age_from_item p = none) →
      pyIn "age" (lowerStr item) = true →
      firstNatRun item.data = some n →
      parse_age md = some n) ∧
    ((∀ i ∈ age_items md, pyIn "age" (lowerStr i) = false ∨ firstNatRun i.data = none) →
      parse_age md = none) := by
  refine ⟨by decide, by decide, fun h1 h2 h3 h4 => ?_, fun h => ?_⟩
  · unfold parse_age
    rw [h1, firstSome_append_none age_from_item pre _ h2]
    have hi : age_from_item item = some n := by
      simp [age_from_item, h3, h4]
    simp [firstSome, hi]
  · unfold parse_age
    apply firstSome_eq_none
    intro i hi
    unfold age_from_item
    rcases h i hi with hc | hn
    · simp [hc]
    · split <;> simp [hn]

/-- Record whose `age` field holds a non-age item followed by an age
item. -/
def mdW : GsmMetadata := ⟨some ["sex: male", "age: 64"], none, none, none, none⟩

/-- Record whose only age-mentioning item carries no digit. -/
def mdN : GsmMetadata := ⟨some ["age unknown"], none, none, none, none⟩

/-- C10 (witness): the scan skips the non-age item and returns 64, and a
record whose only age item has no digit parses to `none`. -/
theorem C10_parse_age_scan_witness :
    parse_age mdW = some 64 ∧ parse_age mdN = none :=
  ⟨(C10_parse_age_scan mdW ["sex: male"] [] "age: 64" 64).2.2.1
      (by decide) (by decide) (by decide) (by decide),
   (C10_parse_age_scan mdN [] [] "" 0).2.2.2 (by decide)⟩

end GeoFetcher
